import Mathlib

/-!
Verification development for the IELTS-speaking feedback pipeline
(`QwenIELTSEvaluator.py`, `evaluate.py`).

Python strings are modelled as `List Char`; machine-level behaviour that can
raise (referencing an unbound local, a failing stream iteration) is modelled
with `Except`.
-/

namespace IELTS

/-- Python strings, modelled as lists of characters. -/
abbrev Str := List Char

/-- Python runtime errors relevant to the embedded code. -/
inductive PyErr where
  /-- Referencing a local variable that was never assigned
      (Python `UnboundLocalError`). -/
  | unboundLocal
  deriving DecidableEq

/-! ## `_build_messages` (QwenIELTSEvaluator.py lines 17-254) -/

/-- Python's `$` anchor (no MULTILINE) also matches just before one final
newline; for the anchored search this is equivalent to first discarding a
sole trailing `'\n'`. -/
def stripFinalNewline (s : Str) : Str :=
  match s.reverse with
  | c :: rest => if c = '\n' then rest.reverse else s
  | [] => s

/-- `re.search(r'\.([a-zA-Z0-9]+)$', audio_url)` (line 21): after the `$`
normalisation, the match succeeds exactly when the string ends with `'.'`
followed by a non-empty run of `[a-zA-Z0-9]` characters, and `group(1)` is
that maximal trailing run.  `Char.isAlphanum` is the ASCII class
`[a-zA-Z0-9]`. -/
def searchExt (audio_url : Str) : Option Str :=
  let s := stripFinalNewline audio_url
  let rext := s.reverse.takeWhile Char.isAlphanum
  match s.reverse.dropWhile Char.isAlphanum with
  | c :: _ =>
      if c = '.' then (if rext = [] then none else some rext.reverse) else none
  | [] => none

/-- The `system_prompt` literal of `_build_messages` (lines 25-226).  The
rubric is an opaque configuration string whose exact contents are irrelevant
to every stated property; it is abridged here to its first line. -/
def system_prompt : Str :=
  "\nYou are an IELTS Speaking examiner with extensive experience assessing candidates according to the official IELTS Speaking Band Descriptors published by the British Council, IDP, and Cambridge English.".data

/-- The `user_prompt` f-string of `_build_messages` (lines 229-235), which
interpolates `system_prompt`; the static preamble is likewise abridged. -/
def user_prompt : Str :=
  "\nThe purpose of this evaluation is to assess the IELTS Speaking performance of the test taker based on the official band descriptors.\n".data
    ++ system_prompt ++ "\n        ".data

/-- The `input_audio` payload of the audio content item (lines 243-246):
`{"data": audio_url, "format": file_format}`. -/
structure InputAudio where
  data : Str
  format : Str
  deriving DecidableEq

/-- One element of a message's `content` list (lines 241-251). -/
inductive ContentItem where
  | input_audio (a : InputAudio)
  | text (t : Str)
  deriving DecidableEq

/-- One message of the request (lines 238-253). -/
structure Message where
  role : Str
  content : List ContentItem
  deriving DecidableEq

/-- `_build_messages` (lines 17-254).  `file_format` is assigned only under
`if match:` (lines 22-23) yet is referenced unconditionally in the
`input_audio` dict (line 246); when the search fails that reference raises
`UnboundLocalError`, modelled as `Except.error .unboundLocal`. -/
def build_messages (audio_url : Str) : Except PyErr (List Message) :=
  match searchExt audio_url with
  | some file_format =>
      .ok [{ role := "user".data,
             content := [ContentItem.input_audio
                           { data := audio_url, format := file_format },
                         ContentItem.text user_prompt] }]
  | none => .error .unboundLocal

/-- The format tag of the first audio content item of a built request, when
one exists. -/
def audioFormat : List Message → Option Str
  | { role := _, content := ContentItem.input_audio a :: _ } :: _ => some a.format
  | _ => none

/-! ## `evaluate_audio` (QwenIELTSEvaluator.py lines 256-308) -/

/-- A usage record carried by a terminal fragment; the observable content is
its token count (`{tokens: 42}` in the spec's example). -/
structure Usage where
  tokens : Nat
  deriving DecidableEq

/-- One element of a list-shaped `delta.content` (lines 288-292): a dict
(an association list with string values), a plain string, or any other
object, which neither `isinstance` test accepts. -/
inductive Item where
  | dict (entries : List (Str × Str))
  | str (s : Str)
  | other
  deriving DecidableEq

/-- The value of `delta.content` when the attribute is present and not
`None`: a list of items or a plain string. -/
inductive ContentVal where
  | list (items : List Item)
  | str (s : Str)
  deriving DecidableEq

/-- `chunk.choices[0].delta` (line 284): `content` is `none` when the
attribute is absent or `None`; `output_text` likewise. -/
structure Delta where
  content : Option ContentVal
  output_text : Option Str
  deriving DecidableEq

/-- One element of `chunk.choices`. -/
structure Choice where
  delta : Delta
  deriving DecidableEq

/-- One streamed fragment (`chunk`).  `usage` is `none` when the attribute is
absent (`hasattr` fails), `some v` when present with value `v` — itself
`none` when the attribute holds Python `None`. -/
structure Chunk where
  choices : List Choice
  usage : Option (Option Usage)
  deriving DecidableEq

/-- Per-item contribution of the list branch (lines 289-292):
`isinstance(c, dict) and ("text" in c or "data" in c)` appends
`c.get("text", c.get("data", ""))`; a plain string is appended directly;
anything else is skipped. -/
def itemText : Item → Str
  | .dict es =>
      if (es.lookup "text".data).isSome || (es.lookup "data".data).isSome then
        match es.lookup "text".data with
        | some v => v
        | none => (es.lookup "data".data).getD []
      else []
  | .str s => s
  | .other => []

/-- The `elif` chain of lines 287-296 applied to one delta, threading the
accumulated `response_text`.  A non-empty string `content` is caught by the
first branch (Python iterates its characters, each an `isinstance str` hit),
so it is appended whole there; the third branch is reachable only for the
empty string. -/
def processDelta (delta : Delta) (response_text : Str) : Str :=
  match delta.content, delta.output_text with
  | some (.list items), ot =>
      if items = [] then
        match ot with
        | some t =>
            if t = [] then response_text else response_text ++ t
        | none => response_text
      else items.foldl (fun acc c => acc ++ itemText c) response_text
  | some (.str s), ot =>
      if s = [] then
        match ot with
        | some t =>
            if t = [] then response_text ++ s else response_text ++ t
        | none => response_text ++ s
      else response_text ++ s
  | none, some t => if t = [] then response_text else response_text ++ t
  | none, none => response_text

/-- The loop state of `evaluate_audio`: `response_text` (line 272) and
`usage_info` (line 273). -/
structure StreamState where
  response_text : Str
  usage_info : Option Usage
  deriving DecidableEq

/-- The initial loop state: `response_text = ""`, `usage_info = None`. -/
def initState : StreamState := { response_text := [], usage_info := none }

/-- The body of `for chunk in completion` (lines 278-296): an empty
`choices` list means the chunk is a metadata carrier — if it has a `usage`
attribute, `usage_info` is (re)assigned to it — otherwise
`chunk.choices[0].delta` is fed to the `elif` chain. -/
def processChunk (st : StreamState) (ch : Chunk) : StreamState :=
  match ch.choices with
  | [] =>
      match ch.usage with
      | some u => { st with usage_info := u }
      | none => st
  | choice :: _ =>
      { st with response_text := processDelta choice.delta st.response_text }

/-- Iterating the stream: each element either yields a chunk or raises
(modelled `Except.error`), which aborts the loop and propagates. -/
def runChunks (st : StreamState) : List (Except Str Chunk) → Except Str StreamState
  | [] => .ok st
  | .error e :: _ => .error e
  | .ok ch :: rest => runChunks (processChunk st ch) rest

/-- The whole `try` body: establishing the stream
(`client.chat.completions.create`, lines 264-270) may itself raise, and then
the loop runs. -/
def runStream (stream : Except Str (List (Except Str Chunk))) :
    Except Str StreamState :=
  match stream with
  | .error e => .error e
  | .ok chunks => runChunks initState chunks

/-- Python `str.strip()` (line 304): drop leading and trailing whitespace. -/
def pyStrip (s : Str) : Str :=
  ((s.dropWhile Char.isWhitespace).reverse.dropWhile Char.isWhitespace).reverse

/-- `evaluate_audio` (lines 256-308).  `_build_messages` is called *outside*
the `try` (line 261), so its `UnboundLocalError` propagates; inside the
`try`, any exception from establishing or iterating the stream is caught and
the function returns `""` (lines 306-308); otherwise it returns
`response_text.strip()` (line 304). -/
def evaluate_audio (audio_url : Str)
    (stream : Except Str (List (Except Str Chunk))) : Except PyErr Str :=
  match build_messages audio_url with
  | .error e => .error e
  | .ok _messages =>
      match runStream stream with
      | .ok st => .ok (pyStrip st.response_text)
      | .error _e => .ok []

/-- Final `usage_info` of a non-raising run, for stating the usage-capture
properties (the Python function only prints it, line 301). -/
def capturedUsage (stream : Except Str (List (Except Str Chunk))) :
    Option Usage :=
  match runStream stream with
  | .ok st => st.usage_info
  | .error _ => none

/-! ## `IELTSFeedbackEvaluator` (evaluate.py lines 27-85) -/

/-- The `ChatOpenAI` client built in `__init__` (lines 38-42); `temperature=0`
is recorded as the integer it is. -/
structure ChatOpenAI where
  model : String
  temperature : Int
  api_key : String
  deriving DecidableEq

/-- The `OpenAIEmbeddings` client (line 43). -/
structure OpenAIEmbeddings where
  api_key : String
  deriving DecidableEq

/-- One entry of `self.metrics` (lines 45-48). -/
inductive Metric where
  | faithfulness (llm : ChatOpenAI)
  | answerRelevancy (llm : ChatOpenAI) (embeddings : OpenAIEmbeddings)
  deriving DecidableEq

/-- The constructed evaluator object. -/
structure FeedbackEvaluator where
  llm : ChatOpenAI
  embeddings : OpenAIEmbeddings
  metrics : List Metric
  deriving DecidableEq

/-- The `RuntimeError` message raised when the key is missing (lines 31-36),
abridged to its first line. -/
def missingKeyMsg : String := "OPENAI_API_KEY not found!"

/-- `IELTSFeedbackEvaluator.__init__` (lines 28-48) as a function of the
`OPENAI_API_KEY` environment value: `os.getenv` returns `None` (here `none`)
when unset, and `if not api_key:` is true exactly for `None` and `""`. -/
def feedbackEvaluatorInit (env_openai_api_key : Option String) :
    Except String FeedbackEvaluator :=
  let api_key := env_openai_api_key
  match api_key with
  | none => .error missingKeyMsg
  | some k =>
      if k = "" then .error missingKeyMsg
      else
        let llm : ChatOpenAI := { model := "gpt-4o-mini", temperature := 0, api_key := k }
        let embeddings : OpenAIEmbeddings := { api_key := k }
        .ok { llm := llm, embeddings := embeddings,
              metrics := [.faithfulness llm, .answerRelevancy llm embeddings] }

/-- One row of the Ragas dataset built by `prepare_dataset` (lines 54-60). -/
structure DatasetRow where
  question : String
  answer : String
  ground_truth : String
  contexts : List String
  deriving DecidableEq

/-- The dataset: `prepare_dataset` builds a single-row dataset and
`dataset.to_list()` returns its rows. -/
abbrev RagasDataset := List DatasetRow

/-- `prepare_dataset` (lines 54-60). -/
def prepare_dataset (human_txt generated_txt : String) : RagasDataset :=
  [{ question := "Evaluate the IELTS Speaking performance based on the official band descriptors.",
     answer := generated_txt, ground_truth := human_txt,
     contexts := [human_txt] }]

/-- A value of `result._repr_dict` (line 70): Python ints and floats pass the
`isinstance` test (a float is NaN or carries a rational magnitude for this
model); anything else fails it. -/
inductive ReprVal where
  | int (n : Int)
  | float (isNan : Bool) (q : Rat)
  | other
  deriving DecidableEq

/-- The outcome of the external `ragas.evaluate` call: the mapping
`result._repr_dict`. -/
structure RagasResult where
  repr_dict : List (String × ReprVal)
  deriving DecidableEq

/-- The dict-comprehension value (lines 71-74):
`float(v) if isinstance(v, (int, float)) and not math.isnan(v) else None`. -/
def cleanVal : ReprVal → Option Rat
  | .int n => some (n : Rat)
  | .float true _ => none
  | .float false q => some q
  | .other => none

/-- The mapping returned by `evaluate_all`: either the success shape
`{"overall_metrics": ..., "detailed_results": ...}` or the failure shape
`{"error": str(e)}`. -/
inductive EvalAllResult where
  | metrics (overall_metrics : List (String × Option Rat))
            (detailed_results : RagasDataset)
  | errorField (msg : String)
  deriving DecidableEq

/-- `evaluate_all` (lines 62-80): the external `ragas.evaluate` call may
raise (its outcome is the `Except` argument); the `except Exception` arm
turns any exception into `{"error": str(e)}` instead of re-raising — the
return type is a plain result, never an `Except`. -/
def evaluate_all (dataset : RagasDataset)
    (ragasOutcome : Except String RagasResult) : EvalAllResult :=
  match ragasOutcome with
  | .ok result =>
      .metrics (result.repr_dict.map (fun kv => (kv.1, cleanVal kv.2))) dataset
  | .error e => .errorField e

/-! ## Derived notions used to state the aggregation properties -/

/-- The text contributed by a single delta, independent of what was already
accumulated. -/
def deltaText (d : Delta) : Str := processDelta d []

/-- The text contributed by a single fragment: nothing for a metadata
carrier, otherwise the contribution of `choices[0].delta`. -/
def chunkText (ch : Chunk) : Str :=
  match ch.choices with
  | [] => []
  | choice :: _ => deltaText choice.delta

/-! ## Concrete fragments for the spec's test vectors -/

/-- A fragment whose delta is the plain string `"a"`. -/
def chA : Chunk :=
  { choices := [{ delta := { content := some (.str "a".data), output_text := none } }],
    usage := none }

/-- A fragment whose delta is the plain string `"b"`. -/
def chB : Chunk :=
  { choices := [{ delta := { content := some (.str "b".data), output_text := none } }],
    usage := none }

/-- A fragment whose delta is the plain string `"c"`. -/
def chC : Chunk :=
  { choices := [{ delta := { content := some (.str "c".data), output_text := none } }],
    usage := none }

/-- The item list `[{"text": "he"}, {"text": "llo"}]`. -/
def helloItems : List Item :=
  [.dict [("text".data, "he".data)], .dict [("text".data, "llo".data)]]

/-- A fragment shaped as the item list `[{"text": "he"}, {"text": "llo"}]`. -/
def chHello : Chunk :=
  { choices := [{ delta := { content := some (.list helloItems), output_text := none } }],
    usage := none }

/-- A fragment with no choices and the usage record `{tokens: 42}`. -/
def chUsage : Chunk := { choices := [], usage := some (some { tokens := 42 }) }

/-! ## Helper lemmas -/

theorem takeWhile_append_all {p : Char → Bool} {l₁ l₂ : Str}
    (h : ∀ a ∈ l₁, p a = true) :
    (l₁ ++ l₂).takeWhile p = l₁ ++ l₂.takeWhile p := by
  induction l₁ with
  | nil => simp
  | cons a t ih =>
      have ha : p a = true := h a (List.mem_cons_self a t)
      have ht : ∀ x ∈ t, p x = true := fun x hx => h x (List.mem_cons_of_mem a hx)
      simp [List.takeWhile_cons, ha, ih ht]

theorem dropWhile_append_all {p : Char → Bool} {l₁ l₂ : Str}
    (h : ∀ a ∈ l₁, p a = true) :
    (l₁ ++ l₂).dropWhile p = l₂.dropWhile p := by
  induction l₁ with
  | nil => simp
  | cons a t ih =>
      have ha : p a = true := h a (List.mem_cons_self a t)
      have ht : ∀ x ∈ t, p x = true := fun x hx => h x (List.mem_cons_of_mem a hx)
      simp [List.dropWhile_cons, ha, ih ht]

/-- The regex search on a locator of the form `prefix ++ "." ++ ext`, with
`ext` a non-empty alphanumeric run, finds exactly `ext`. -/
theorem searchExt_eq (p ext : Str) (hne : ext ≠ [])
    (hal : ∀ c ∈ ext, c.isAlphanum = true) :
    searchExt (p ++ '.' :: ext) = some ext := by
  obtain ⟨c, t, hct⟩ : ∃ c t, ext.reverse = c :: t := by
    cases hrev : ext.reverse with
    | nil => exact absurd (by simpa using congrArg List.reverse hrev) hne
    | cons c t => exact ⟨c, t, rfl⟩
  have hrev : (p ++ '.' :: ext).reverse = ext.reverse ++ '.' :: p.reverse := by
    simp [List.reverse_append]
  have hralp : ∀ x ∈ ext.reverse, Char.isAlphanum x = true :=
    fun x hx => hal x (List.mem_reverse.mp hx)
  have hdot : Char.isAlphanum '.' = false := by decide
  have hcal : Char.isAlphanum c = true :=
    hralp c (by rw [hct]; exact List.mem_cons_self c t)
  have hcne : c ≠ '\n' := by
    intro hc; rw [hc] at hcal; exact absurd hcal (by decide)
  have hstrip : stripFinalNewline (p ++ '.' :: ext) = p ++ '.' :: ext := by
    unfold stripFinalNewline
    rw [hrev, hct, List.cons_append]
    simp [hcne]
  have htake : ((p ++ '.' :: ext).reverse).takeWhile Char.isAlphanum = ext.reverse := by
    rw [hrev, takeWhile_append_all hralp, List.takeWhile_cons, hdot]
    simp
  have hdrop : ((p ++ '.' :: ext).reverse).dropWhile Char.isAlphanum = '.' :: p.reverse := by
    rw [hrev, dropWhile_append_all hralp, List.dropWhile_cons, hdot]
    simp
  have hrne : ext.reverse ≠ [] := by rw [hct]; exact List.cons_ne_nil c t
  simp only [searchExt]
  rw [hstrip, htake, hdrop]
  simp [hrne]

theorem foldl_itemText (items : List Item) (acc : Str) :
    items.foldl (fun a c => a ++ itemText c) acc = acc ++ (items.map itemText).flatten := by
  induction items generalizing acc with
  | nil => simp
  | cons c rest ih => simp [ih, List.append_assoc]

/-- Every delta contribution is appended: the accumulated prefix is
preserved verbatim. -/
theorem processDelta_acc (d : Delta) (acc : Str) :
    processDelta d acc = acc ++ deltaText d := by
  obtain ⟨content, ot⟩ := d
  unfold deltaText
  cases content with
  | none =>
      cases ot with
      | none => simp [processDelta]
      | some t => by_cases ht : t = [] <;> simp [processDelta, ht]
  | some cv =>
      cases cv with
      | str s =>
          cases ot with
          | none => by_cases hs : s = [] <;> simp [processDelta, hs]
          | some t =>
              by_cases hs : s = [] <;> by_cases ht : t = [] <;>
                simp [processDelta, hs, ht]
      | list items =>
          cases ot with
          | none =>
              by_cases hi : items = [] <;> simp [processDelta, hi, foldl_itemText]
          | some t =>
              by_cases hi : items = [] <;> by_cases ht : t = [] <;>
                simp [processDelta, hi, ht, foldl_itemText]

/-- A fragment's effect on the accumulated text is a pure append of its
contribution. -/
theorem processChunk_text (st : StreamState) (ch : Chunk) :
    (processChunk st ch).response_text = st.response_text ++ chunkText ch := by
  obtain ⟨choices, usage⟩ := ch
  cases choices with
  | nil =>
      cases usage <;> simp [processChunk, chunkText]
  | cons choice rest =>
      simp [processChunk, chunkText, processDelta_acc]

theorem foldl_processChunk_text (chunks : List Chunk) (st : StreamState) :
    ((chunks.foldl processChunk st).response_text) =
      st.response_text ++ (chunks.map chunkText).flatten := by
  induction chunks generalizing st with
  | nil => simp
  | cons ch rest ih => simp [ih, processChunk_text, List.append_assoc]

/-- A stream with no failing iteration runs the loop to completion. -/
theorem runChunks_map_ok (chunks : List Chunk) (st : StreamState) :
    runChunks st (chunks.map .ok) = .ok (chunks.foldl processChunk st) := by
  induction chunks generalizing st with
  | nil => rfl
  | cons ch rest ih => simp [runChunks, ih]

/-- The first failing iteration aborts the loop and propagates, whatever was
accumulated before it. -/
theorem runChunks_error (pre : List Chunk) (st : StreamState) (e : Str)
    (rest : List (Except Str Chunk)) :
    runChunks st (pre.map .ok ++ .error e :: rest) = .error e := by
  induction pre generalizing st with
  | nil => rfl
  | cons ch t ih => simp [runChunks, ih]

/-- When the search succeeds, `build_messages` succeeds. -/
theorem build_messages_ok {url : Str} (h : (searchExt url).isSome = true) :
    ∃ ms, build_messages url = .ok ms := by
  obtain ⟨f, hf⟩ := Option.isSome_iff_exists.mp h
  exact ⟨_, by unfold build_messages; rw [hf]⟩

/-! ## Claims -/

/-- C1: the spec requires that for a locator with no trailing extension the
request is still built, without raising and with the format tag left unset.
The code instead references the local `file_format` — assigned only under
`if match:` — unconditionally, so such a locator raises `UnboundLocalError`,
which also escapes `evaluate_audio` because `_build_messages` is called
outside its `try`. -/
theorem C1_missing_extension_raises :
    build_messages "audiofile".data = .error PyErr.unboundLocal ∧
    evaluate_audio "audiofile".data (.ok []) = .error PyErr.unboundLocal :=
  ⟨rfl, rfl⟩

/-- C2: any exception raised while establishing the stream or while
iterating it — even partway through, after text has accumulated — is caught
by `evaluate_audio`, which returns the empty string and discards the partial
accumulation. -/
theorem C2_stream_exception_caught (url e : Str) (pre : List Chunk)
    (rest : List (Except Str Chunk)) (h : (searchExt url).isSome = true) :
    evaluate_audio url (.error e) = .ok [] ∧
    evaluate_audio url (.ok (pre.map .ok ++ .error e :: rest)) = .ok [] := by
  obtain ⟨ms, hms⟩ := build_messages_ok h
  constructor
  · unfold evaluate_audio
    rw [hms]
    rfl
  · unfold evaluate_audio
    rw [hms]
    have h2 : runStream (.ok (pre.map .ok ++ .error e :: rest)) = .error e :=
      runChunks_error pre initState e rest
    rw [h2]

theorem C2_witness :
    (searchExt "a.mp3".data).isSome = true ∧
    (evaluate_audio "a.mp3".data (.error "boom".data) = .ok [] ∧
     evaluate_audio "a.mp3".data
        (.ok (([chA] : List Chunk).map .ok ++ .error "boom".data :: [.ok chB])) = .ok []) :=
  ⟨by decide,
   C2_stream_exception_caught "a.mp3".data "boom".data [chA] [.ok chB] (by decide)⟩

/-- C3: for every locator ending in `'.'` followed by a non-empty
alphanumeric run, the format tag placed in the audio content item is exactly
that run, case preserved. -/
theorem C3_format_tag_is_extension (p ext : Str) (hne : ext ≠ [])
    (hal : ∀ c ∈ ext, c.isAlphanum = true) :
    build_messages (p ++ '.' :: ext) =
      .ok [{ role := "user".data,
             content := [ContentItem.input_audio
                           { data := p ++ '.' :: ext, format := ext },
                         ContentItem.text user_prompt] }] := by
  unfold build_messages
  rw [searchExt_eq p ext hne hal]

theorem C3_witness :
    ("Mp3".data ≠ [] ∧ (∀ c ∈ "Mp3".data, c.isAlphanum = true)) ∧
    build_messages ("x".data ++ '.' :: "Mp3".data) =
      .ok [{ role := "user".data,
             content := [ContentItem.input_audio
                           { data := "x".data ++ '.' :: "Mp3".data, format := "Mp3".data },
                         ContentItem.text user_prompt] }] :=
  ⟨⟨by decide, by decide⟩,
   C3_format_tag_is_extension "x".data "Mp3".data (by decide) (by decide)⟩

/-- C4: the aggregated result is the in-arrival-order concatenation of the
fragments' contributions, trimmed at stream end; in particular the
fragments contributing `"a"`, `"b"`, `"c"` aggregate to `"abc"`. -/
theorem C4_in_order_concatenation (url : Str) (chunks : List Chunk)
    (h : (searchExt url).isSome = true) :
    evaluate_audio url (.ok (chunks.map .ok)) =
      .ok (pyStrip ((chunks.map chunkText).flatten)) ∧
    evaluate_audio "a.mp3".data (.ok [.ok chA, .ok chB, .ok chC]) = .ok "abc".data := by
  refine ⟨?_, rfl⟩
  obtain ⟨ms, hms⟩ := build_messages_ok h
  unfold evaluate_audio
  rw [hms]
  have h2 : runStream (.ok (chunks.map .ok)) = .ok (chunks.foldl processChunk initState) :=
    runChunks_map_ok chunks initState
  rw [h2]
  have h3 : (chunks.foldl processChunk initState).response_text =
      (chunks.map chunkText).flatten := by
    rw [foldl_processChunk_text]
    rfl
  show Except.ok (pyStrip (chunks.foldl processChunk initState).response_text) =
      Except.ok (pyStrip ((chunks.map chunkText).flatten))
  rw [h3]

theorem C4_witness :
    (searchExt "a.mp3".data).isSome = true ∧
    (evaluate_audio "a.mp3".data (.ok (([chA, chB, chC] : List Chunk).map .ok)) =
       .ok (pyStrip ((([chA, chB, chC] : List Chunk).map chunkText).flatten)) ∧
     evaluate_audio "a.mp3".data (.ok [.ok chA, .ok chB, .ok chC]) = .ok "abc".data) :=
  ⟨by decide, C4_in_order_concatenation "a.mp3".data [chA, chB, chC] (by decide)⟩

/-- C5: for a list-shaped delta, each mapping item exposing `text` or `data`
contributes the `text` value when present and the `data` value otherwise,
plain-string items contribute themselves, and the contributions are appended
in order; in particular `[{"text": "he"}, {"text": "llo"}]` aggregates to
`"hello"`. -/
theorem C5_list_delta_items :
    (∀ es v, es.lookup "text".data = some v → itemText (.dict es) = v) ∧
    (∀ es v, es.lookup "text".data = none → es.lookup "data".data = some v →
        itemText (.dict es) = v) ∧
    (∀ s, itemText (.str s) = s) ∧
    (∀ items acc ot, items ≠ [] →
        processDelta { content := some (.list items), output_text := ot } acc =
          acc ++ (items.map itemText).flatten) ∧
    evaluate_audio "a.mp3".data (.ok [.ok chHello]) = .ok "hello".data := by
  refine ⟨?_, ?_, fun s => rfl, ?_, rfl⟩
  · intro es v hv
    simp [itemText, hv]
  · intro es v hv hd
    simp [itemText, hv, hd]
  · intro items acc ot hne
    simp [processDelta, hne, foldl_itemText]

theorem C5_witness :
    itemText (.dict [("text".data, "he".data)]) = "he".data ∧
    itemText (.dict [("data".data, "llo".data)]) = "llo".data ∧
    itemText (.str "z".data) = "z".data ∧
    processDelta { content := some (.list helloItems), output_text := none } [] =
      [] ++ (helloItems.map itemText).flatten :=
  ⟨C5_list_delta_items.1 _ _ (by decide),
   C5_list_delta_items.2.1 _ _ (by decide) (by decide),
   C5_list_delta_items.2.2.1 _,
   C5_list_delta_items.2.2.2.1 _ _ _ (by decide)⟩

/-- C6: a fragment with no choice payload leaves the accumulated text
unchanged and, when it exposes a usage record, only (re)assigns the captured
usage field; the stream whose sole fragment carries `{tokens: 42}` yields
empty text and that captured record. -/
theorem C6_metadata_chunk :
    (∀ (st : StreamState) (ch : Chunk), ch.choices = [] →
        (processChunk st ch).response_text = st.response_text) ∧
    (∀ (st : StreamState) (ch : Chunk) (u : Usage), ch.choices = [] →
        ch.usage = some (some u) →
        processChunk st ch = { st with usage_info := some u }) ∧
    evaluate_audio "a.mp3".data (.ok [.ok chUsage]) = .ok [] ∧
    capturedUsage (.ok [.ok chUsage]) = some { tokens := 42 } := by
  refine ⟨?_, ?_, rfl, rfl⟩
  · intro st ch h
    obtain ⟨choices, usage⟩ := ch
    simp only [Chunk.mk.injEq] at h ⊢
    subst h
    cases usage <;> simp [processChunk]
  · intro st ch u h hu
    obtain ⟨choices, usage⟩ := ch
    simp only at h hu
    subst h
    subst hu
    simp [processChunk]

theorem C6_witness :
    (chUsage.choices = [] ∧
     (processChunk initState chUsage).response_text = initState.response_text) ∧
    (chUsage.usage = some (some { tokens := 42 }) ∧
     processChunk initState chUsage = { initState with usage_info := some { tokens := 42 } }) :=
  ⟨⟨rfl, C6_metadata_chunk.1 initState chUsage rfl⟩,
   ⟨rfl, C6_metadata_chunk.2.1 initState chUsage { tokens := 42 } rfl rfl⟩⟩

/-- C7: a delta matching none of the disambiguation shapes, and a list item
that is neither a `text`/`data` mapping nor a plain string, contribute
nothing — processing is total, no error. -/
theorem C7_unmatched_shapes_skipped :
    (∀ (acc : Str) (ot : Option Str), ot = none ∨ ot = some [] →
        processDelta { content := none, output_text := ot } acc = acc) ∧
    (∀ (acc : Str) (ot : Option Str), ot = none ∨ ot = some [] →
        processDelta { content := some (.list []), output_text := ot } acc = acc) ∧
    (∀ es, es.lookup "text".data = none → es.lookup "data".data = none →
        itemText (.dict es) = []) ∧
    itemText .other = [] := by
  refine ⟨?_, ?_, ?_, rfl⟩
  · rintro acc ot (rfl | rfl) <;> simp [processDelta]
  · rintro acc ot (rfl | rfl) <;> simp [processDelta]
  · intro es ht hd
    simp [itemText, ht, hd]

theorem C7_witness :
    processDelta { content := none, output_text := none } "kept".data = "kept".data ∧
    processDelta { content := some (.list []), output_text := some [] } "kept".data
      = "kept".data ∧
    itemText (.dict [("other".data, "v".data)]) = [] :=
  ⟨C7_unmatched_shapes_skipped.1 _ none (Or.inl rfl),
   C7_unmatched_shapes_skipped.2.1 _ (some []) (Or.inr rfl),
   C7_unmatched_shapes_skipped.2.2.1 _ (by decide) (by decide)⟩

/-- C8: the empty fragment stream aggregates to the empty string and no
usage record is captured. -/
theorem C8_empty_stream (url : Str) (h : (searchExt url).isSome = true) :
    evaluate_audio url (.ok []) = .ok [] ∧ capturedUsage (.ok []) = none := by
  obtain ⟨ms, hms⟩ := build_messages_ok h
  refine ⟨?_, rfl⟩
  unfold evaluate_audio
  rw [hms]
  rfl

theorem C8_witness :
    (searchExt "a.mp3".data).isSome = true ∧
    (evaluate_audio "a.mp3".data (.ok []) = .ok [] ∧ capturedUsage (.ok []) = none) :=
  ⟨by decide, C8_empty_stream "a.mp3".data (by decide)⟩

/-- C9: when the inner Ragas evaluation raises, `evaluate_all` does not
re-raise: it returns the `{"error": str(e)}` mapping. -/
theorem C9_secondary_failure_reported (dataset : RagasDataset) (e : String) :
    evaluate_all dataset (.error e) = .errorField e := rfl

/-- C10: constructing `IELTSFeedbackEvaluator` raises `RuntimeError` exactly
when `OPENAI_API_KEY` is unset or empty; otherwise construction completes
with the clients and metrics built from the key. -/
theorem C10_init_requires_api_key :
    feedbackEvaluatorInit none = .error missingKeyMsg ∧
    feedbackEvaluatorInit (some "") = .error missingKeyMsg ∧
    ∀ k : String, k ≠ "" →
      feedbackEvaluatorInit (some k) =
        .ok { llm := { model := "gpt-4o-mini", temperature := 0, api_key := k },
              embeddings := { api_key := k },
              metrics := [.faithfulness { model := "gpt-4o-mini", temperature := 0, api_key := k },
                          .answerRelevancy
                            { model := "gpt-4o-mini", temperature := 0, api_key := k }
                            { api_key := k }] } := by
  refine ⟨rfl, rfl, ?_⟩
  intro k hk
  simp [feedbackEvaluatorInit, hk]

theorem C10_witness :
    ("sk-test" : String) ≠ "" ∧
    feedbackEvaluatorInit (some "sk-test") =
      .ok { llm := { model := "gpt-4o-mini", temperature := 0, api_key := "sk-test" },
            embeddings := { api_key := "sk-test" },
            metrics := [.faithfulness { model := "gpt-4o-mini", temperature := 0, api_key := "sk-test" },
                        .answerRelevancy
                          { model := "gpt-4o-mini", temperature := 0, api_key := "sk-test" }
                          { api_key := "sk-test" }] } :=
  ⟨by decide, C10_init_requires_api_key.2.2 "sk-test" (by decide)⟩

end IELTS
